import Mathlib

/-!
Verification of the Naotica2/naoload download service.

This file gives a shallow embedding, in Lean, of the request handlers of the
repository:

* the proxy download route (`src/src/app/api/download/route.ts`, first
  revision, lines 1-218): platform detection, YouTube id extraction, the
  heuristic response-pattern extraction and the final canonical-result
  construction;
* the rate-limited download route (same file, lines 271-666): the
  `RATE_LIMITS` table, `checkRateLimit`, `incrementDownloadCount`, the audio
  polling adapter `downloadAudio`, the video adapter `downloadVideo` and the
  `POST` handler composing them;
* the usage-log route (`src/unnamed/part_001`) and the admin stats route
  (`src/src/app/api/admin/stats/route.ts`, authentication gate).

Network and database effects are modelled by explicit outcome parameters
(what `fetch`/supabase returned or whether they threw); JavaScript string
truthiness is modelled over `Option String` (with `none` for `undefined`
and `""` falsy).  Theorems about the claims follow the definitions.
-/

namespace Naoload

/-- Truthiness of a JavaScript string-or-undefined value: `undefined` and the
empty string are falsy, every other string is truthy. -/
def truthy : Option String → Bool
  | none => false
  | some s => s != ""

/-- JavaScript `a || b` on string-or-undefined values: yields `a` when `a` is
truthy, otherwise `b`. -/
def jsOr (a b : Option String) : Option String :=
  if truthy a then a else b

/-- JavaScript `a || d` where the fallback `d` is a (truthy) string literal:
yields the string content of `a` when truthy, otherwise `d`. -/
def jsOrS (a : Option String) (d : String) : String :=
  match a with
  | some s => if s = "" then d else s
  | none => d

/-- List-of-characters prefix test: `isPrefixL pat s` holds when `pat` is a
prefix of `s`. -/
def isPrefixL : List Char → List Char → Bool
  | [], _ => true
  | _ :: _, [] => false
  | a :: as, b :: bs => a == b && isPrefixL as bs

/-- Substring test on character lists: `hasSub s pat` holds when `pat` occurs
contiguously inside `s`. -/
def hasSub : List Char → List Char → Bool
  | [], pat => isPrefixL pat []
  | c :: t, pat => isPrefixL pat (c :: t) || hasSub t pat

/-- JavaScript `s.includes(pat)`: case-sensitive contiguous substring test. -/
def jsIncludes (s pat : String) : Bool :=
  hasSub s.data pat.data

/-- Platform detector of the rate-limited download route
(`route.ts` lines 337-345).  First match wins; the fallback is `"other"`. -/
def detectPlatform (url : String) : String :=
  if jsIncludes url "youtube.com" || jsIncludes url "youtu.be" then "youtube"
  else if jsIncludes url "tiktok.com" then "tiktok"
  else if jsIncludes url "instagram.com" then "instagram"
  else if jsIncludes url "facebook.com" || jsIncludes url "fb.watch" then "facebook"
  else if jsIncludes url "twitter.com" || jsIncludes url "x.com" then "twitter"
  else if jsIncludes url "music.youtube.com" then "youtube-music"
  else "other"

/-- Platform detector of the proxy download route (`route.ts` lines 4-9).
First match wins; the fallback is `"unknown"`. -/
def detectPlatform1 (url : String) : String :=
  if jsIncludes url "instagram.com" || jsIncludes url "instagr.am" then "instagram"
  else if jsIncludes url "tiktok.com" || jsIncludes url "vm.tiktok.com" then "tiktok"
  else if jsIncludes url "youtube.com" || jsIncludes url "youtu.be" then "youtube"
  else "unknown"

/-- Character class `[A-Za-z0-9_-]` of the YouTube video-id regexes. -/
def idChar (c : Char) : Bool :=
  c.isAlphanum || c == '_' || c == '-'

/-- Match one id-extraction regex at the head of `s`: the literal `lit` must
be a prefix, and the (greedy) capture is the maximal nonempty run of id
characters that follows it. -/
def matchIdAt (lit s : List Char) : Option (List Char) :=
  if isPrefixL lit s then
    let run := (s.drop lit.length).takeWhile idChar
    if run.isEmpty then none else some run
  else none

/-- Scan `s` left to right for the first position where `matchIdAt` succeeds
(the semantics of an unanchored JavaScript regex match). -/
def findIdMatch (lit : List Char) : List Char → Option (List Char)
  | [] => matchIdAt lit []
  | c :: t =>
    match matchIdAt lit (c :: t) with
    | some r => some r
    | none => findIdMatch lit t

/-- Source `extractYoutubeVideoId` (`route.ts` lines 12-23): try the three regex
patterns in order, returning the first capture. -/
def extractYoutubeVideoId (url : String) : Option String :=
  match findIdMatch "youtube.com/watch?v=".data url.data with
  | some r => some (String.mk r)
  | none =>
    match findIdMatch "youtu.be/".data url.data with
    | some r => some (String.mk r)
    | none => (findIdMatch "youtube.com/shorts/".data url.data).map String.mk

/-- One entry of the `medias` accumulator / `picker` array built by the proxy
route (`route.ts` line 109): `{url, type, quality}`. -/
structure PickerItem where
  url : Option String
  type : String
  quality : Option String
deriving DecidableEq

/-- An entry of the upstream `links` array (pattern 2 of the proxy route). -/
structure LinkEntry where
  link : Option String := none
  url : Option String := none
  type : Option String := none
  quality : Option String := none
  resolution : Option String := none
deriving DecidableEq

/-- An entry of the upstream `formats` array (pattern 3 of the proxy route). -/
structure FormatEntry where
  url : Option String := none
  hasVideo : Bool := false
  hasAudio : Bool := false
  qualityLabel : Option String := none
  quality : Option String := none
deriving DecidableEq

/-- An entry of the upstream `media` array (pattern 4 of the proxy route). -/
structure MediaEntry where
  url : Option String := none
  link : Option String := none
  type : Option String := none
  quality : Option String := none
deriving DecidableEq

/-- The upstream JSON payload fields inspected by the proxy route
(`route.ts` lines 99-207).  Absent fields are `none`. -/
structure Data1 where
  link : Option String := none
  url : Option String := none
  download_url : Option String := none
  links : Option (List LinkEntry) := none
  formats : Option (List FormatEntry) := none
  media : Option (List MediaEntry) := none
  video : Option String := none
  video_url : Option String := none
  videoUrl : Option String := none
  image : Option String := none
  image_url : Option String := none
  imageUrl : Option String := none
  message : Option String := none
  error : Option String := none
deriving DecidableEq

/-- The mutable state `(mediaUrl, filename, medias)` threaded through the
five extraction patterns of the proxy route (`route.ts` lines 107-109). -/
structure Extract1State where
  mediaUrl : Option String
  filename : String
  medias : List PickerItem
deriving DecidableEq

/-- Pattern 1 (`route.ts` lines 113-118): a direct url in
`link || url || download_url`. -/
def pattern1 (platform : String) (data : Data1) (st : Extract1State) : Extract1State :=
  let v := jsOr (jsOr data.link data.url) data.download_url
  if truthy v then
    { st with
      mediaUrl := v
      filename :=
        if platform == "youtube" then "youtube_video.mp4"
        else if platform == "instagram" then "instagram_media"
        else "tiktok_video.mp4" }
  else st

/-- Pattern 2 (`route.ts` lines 121-134): the `links` array; each entry is
pushed onto `medias`, then `medias[0].url` is taken when truthy. -/
def pattern2 (platform : String) (data : Data1) (st : Extract1State) : Extract1State :=
  match data.links with
  | none => st
  | some ls =>
    if ls.isEmpty then st
    else
      let medias := st.medias ++ ls.map fun l =>
        { url := jsOr l.link l.url
          type := jsOrS l.type "video"
          quality := jsOr l.quality l.resolution : PickerItem }
      match medias with
      | [] => { st with medias := medias }
      | m0 :: _ =>
        if truthy m0.url then
          { mediaUrl := m0.url, filename := platform ++ "_video.mp4", medias := medias }
        else { st with medias := medias }

/-- Pattern 3 (`route.ts` lines 137-158): the YouTube `formats` array; only
entries with a truthy `url` are pushed onto `medias`; `mediaUrl` is taken
from the last format having both audio and video (its `url` unchecked),
else from `medias[0]`. -/
def pattern3 (data : Data1) (st : Extract1State) : Extract1State :=
  match data.formats with
  | none => st
  | some fs =>
    if fs.isEmpty then st
    else
      let medias := st.medias ++ (fs.filter fun f => truthy f.url).map fun f =>
        { url := f.url
          type := if f.hasVideo then "video" else "audio"
          quality := jsOr f.qualityLabel f.quality : PickerItem }
      let videoWithAudio := fs.filter fun f => f.hasAudio && f.hasVideo
      match videoWithAudio.getLast? with
      | some last =>
        { mediaUrl := last.url, filename := "youtube_video.mp4", medias := medias }
      | none =>
        match medias with
        | m0 :: _ => { mediaUrl := m0.url, filename := "youtube_video.mp4", medias := medias }
        | [] => { st with medias := medias }

/-- Pattern 4 (`route.ts` lines 161-173): the `media` array; entries pushed
onto `medias`, then `medias[0].url` taken when truthy. -/
def pattern4 (platform : String) (data : Data1) (st : Extract1State) : Extract1State :=
  match data.media with
  | none => st
  | some ms =>
    if ms.isEmpty then st
    else
      let medias := st.medias ++ ms.map fun m =>
        { url := jsOr m.url m.link
          type := jsOrS m.type "video"
          quality := m.quality : PickerItem }
      match medias with
      | [] => { st with medias := medias }
      | m0 :: _ =>
        if truthy m0.url then
          { mediaUrl := m0.url, filename := platform ++ "_media", medias := medias }
        else { st with medias := medias }

/-- Pattern 5 (`route.ts` lines 176-184): direct `video*` / `image*` fields,
only consulted when `mediaUrl` is still falsy. -/
def pattern5 (platform : String) (data : Data1) (st : Extract1State) : Extract1State :=
  if truthy st.mediaUrl then st
  else
    let v := jsOr (jsOr data.video data.video_url) data.videoUrl
    if truthy v then { st with mediaUrl := v, filename := platform ++ "_video.mp4" }
    else
      let i := jsOr (jsOr data.image data.image_url) data.imageUrl
      if truthy i then { st with mediaUrl := i, filename := platform ++ "_image.jpg" }
      else st

/-- The five extraction patterns of the proxy route run in order, starting
from `mediaUrl = null`, `filename = 'download'`, `medias = []`. -/
def extractMedia (platform : String) (data : Data1) : Extract1State :=
  pattern5 platform data
    (pattern4 platform data
      (pattern3 data
        (pattern2 platform data
          (pattern1 platform data ⟨none, "download", []⟩))))

/-- The JSON body of an HTTP response of the download handlers, with the
fields relevant to the Canonical Result invariant.  Fields that the handler
does not set are `none` (absent after JSON serialization). -/
structure HttpResponse where
  httpStatus : Nat
  status : String
  url : Option String := none
  filename : Option String := none
  picker : Option (List PickerItem) := none
  errorCode : Option String := none
  remaining : Option Int := none
deriving DecidableEq

/-- An error response `{status:'error', error:{code}}`. -/
def errResp (httpStatus : Nat) (code : String) : HttpResponse :=
  { httpStatus := httpStatus, status := "error", errorCode := some code }

/-- A redirect response `{status:'redirect', url, filename}`. -/
def redirectResp (url : Option String) (filename : String) : HttpResponse :=
  { httpStatus := 200, status := "redirect", url := url, filename := some filename }

/-- A picker response `{status:'picker', picker}`. -/
def pickerResp (items : List PickerItem) : HttpResponse :=
  { httpStatus := 200, status := "picker", picker := some items }

/-- Outcome of `await request.json()` for the proxy route: the parse threw,
or produced a body whose `url` field is as given. -/
inductive BodyOut1 where
  | thrown
  | ok (url : Option String)

/-- Outcome of the proxy route's upstream fetch: the fetch (or the
`response.json()` that follows it) threw, or returned HTTP metadata plus a
parsed payload. -/
inductive FetchOut1 where
  | thrown (msg : String)
  | ok (httpOk : Bool) (httpStatus : Nat) (json : Option Data1)

/-- The proxy route's `POST` handler (`route.ts` lines 25-218) as a function
of the request-body outcome, the presence of the RapidAPI key, and the
upstream fetch outcome. -/
def POST1 (body : BodyOut1) (hasKey : Bool) (fetch : FetchOut1) : HttpResponse :=
  match body with
  | .thrown => errResp 500 "Fetch failed: body parse error"
  | .ok urlOpt =>
    if !truthy urlOpt then errResp 400 "Missing URL"
    else if !hasKey then errResp 500 "API key not configured"
    else
      let url := urlOpt.getD ""
      let platform := detectPlatform1 url
      if platform == "unknown" then
        errResp 400 "Platform not supported. Use Instagram, TikTok, or YouTube."
      else if platform == "youtube" && (extractYoutubeVideoId url).isNone then
        errResp 400 "Invalid YouTube URL"
      else
        match fetch with
        | .thrown msg => errResp 500 ("Fetch failed: " ++ msg)
        | .ok httpOk httpStatus json =>
          match json with
          | none => errResp 500 "Fetch failed: response parse error"
          | some data =>
            if !httpOk then
              errResp httpStatus
                (jsOrS (jsOr data.message data.error) ("API Error: " ++ toString httpStatus))
            else
              let st := extractMedia platform data
              if truthy st.mediaUrl then redirectResp st.mediaUrl st.filename
              else if !st.medias.isEmpty then pickerResp st.medias
              else errResp 200 "Could not extract media URL from API response"

/-- The `download_type` column: `'video' | 'audio'`. -/
inductive Kind where
  | video
  | audio
deriving DecidableEq

/-- The `RATE_LIMITS` table (`route.ts` lines 281-284): per-IP daily thresholds. -/
def RATE_LIMITS : Kind → Nat
  | .video => 4
  | .audio => 10

/-- The `MAX_POLL_ATTEMPTS` constant (`route.ts` line 286). -/
def MAX_POLL_ATTEMPTS : Nat := 30

/-- The `POLL_INTERVAL` constant in milliseconds (`route.ts` line 287). -/
def POLL_INTERVAL : Nat := 2000

/-- A row key of the `download_limits` table:
`(ip_address, download_type, download_date)`. -/
structure RLKey where
  ip : String
  kind : Kind
  day : String
deriving DecidableEq

/-- The `download_limits` table, as the `download_count` stored per key
(`none` when no row exists). -/
def Store : Type := RLKey → Option Nat

/-- The table with no rows. -/
def emptyStore : Store := fun _ => none

/-- Outcome of the `select ... .single()` read in `checkRateLimit`:
the read succeeded (no row surfaces as code `PGRST116` and is normalized to
count 0 by the source, so it is folded into `success` here), the read
returned another error value, or the read threw. -/
inductive ReadOutcome where
  | success
  | dbErr (code : String)
  | thrown

/-- Result of `checkRateLimit`: `{allowed, remaining}`. -/
structure RLResult where
  allowed : Bool
  remaining : Nat
deriving DecidableEq

/-- Source `checkRateLimit` (`route.ts` lines 362-391).  On a read error with code
other than `PGRST116`, and on a thrown exception, it allows the request with
the full limit remaining (fail-open).  Otherwise the current count is
`data?.download_count || 0`, the request is allowed iff the count is below
the limit, and `remaining = max(0, limit - count)` (`Nat` subtraction). -/
def checkRateLimit (store : Store) (readOut : ReadOutcome) (ip : String) (kind : Kind)
    (day : String) : RLResult :=
  let limit := RATE_LIMITS kind
  match readOut with
  | .thrown => ⟨true, limit⟩
  | .dbErr code =>
    if code != "PGRST116" then ⟨true, limit⟩
    else
      let currentCount := 0
      ⟨decide (currentCount < limit), limit - currentCount⟩
  | .success =>
    let currentCount := (store ⟨ip, kind, day⟩).getD 0
    ⟨decide (currentCount < limit), limit - currentCount⟩

/-- Outcome of the storage operations inside `incrementDownloadCount`:
the upsert returned no error; the upsert returned an error (so the fallback
select-then-update path runs against the store); or an exception was thrown
and caught (store unchanged).  A fallback select that errors leaves
`existing` null and therefore also changes nothing. -/
inductive UpsertOut where
  | success
  | errorRow
  | thrown

/-- Source `incrementDownloadCount` (`route.ts` lines 394-440).  The upsert supplies
`download_count: 1` with `onConflict` on the key columns and
`ignoreDuplicates: false` (merge-duplicates), so a successful upsert writes
the row with count 1 whether or not a row already existed.  Only when the
upsert returns an error does the fallback read the existing count and update
it to `existing.download_count + 1` (doing nothing when no row is found). -/
def incrementDownloadCount (store : Store) (u : UpsertOut) (ip : String) (kind : Kind)
    (day : String) : Store :=
  let key : RLKey := ⟨ip, kind, day⟩
  match u with
  | .success => fun k => if k = key then some 1 else store k
  | .errorRow =>
    match store key with
    | some c => fun k => if k = key then some (c + 1) else store k
    | none => store
  | .thrown => store

/-- The `info` object of the audio API's initial response. -/
structure AudioInfo where
  image : Option String := none
  title : Option String := none
deriving DecidableEq

/-- Shape `AudioInitialResponse` (`route.ts` lines 289-300); the `error` field's
truthiness is a `Bool` (absent is falsy). -/
structure AudioInitialResponse where
  success : Bool := false
  id : String := ""
  title : Option String := none
  info : Option AudioInfo := none
  progress_url : Option String := none
  message : Option String := none
  error : Bool := false
deriving DecidableEq

/-- Shape `AudioProgressResponse` (`route.ts` lines 302-308). -/
structure AudioProgressResponse where
  success : Bool := false
  progress : Option Int := none
  download_url : Option String := none
  text : Option String := none
  error : Bool := false
deriving DecidableEq

/-- Outcome of one progress poll (`route.ts` lines 493-501): the fetch threw
(propagating out of the adapter), the response was not ok (the loop
continues), or a parsed progress payload was obtained. -/
inductive PollResult where
  | thrown (msg : String)
  | httpFail
  | ok (r : AudioProgressResponse)
deriving DecidableEq

/-- The filename sanitizer of both adapters: non-alphanumeric
characters replaced by underscores, truncated to 50 characters. -/
def sanitize50 (s : String) : String :=
  String.mk ((s.data.map fun c => if c.isAlphanum then c else '_').take 50)

/-- The normalized value returned by `downloadAudio` / `downloadVideo`
(`route.ts` lines 443-450 and 530-537); `url` is optional because the video
adapter copies the selected media's `url` field without checking it. -/
structure AdapterResult where
  status : String
  url : Option String
  filename : String
  thumb : Option String := none
  title : Option String := none
  quality : Option String := none
deriving DecidableEq

/-- Outcome of the audio API's initial fetch: threw, returned non-ok HTTP,
or returned a parsed initial payload. -/
inductive FetchOutA where
  | thrown (msg : String)
  | notOk (httpStatus : Nat)
  | ok (d : AudioInitialResponse)

/-- The polling loop of `downloadAudio` (`route.ts` lines 490-521), with the
poll outcome at each attempt index supplied by `poll`.  On success it also
returns the number of progress requests issued (`attempt + 1`).  Exhausting
the fuel is the `for` loop ending, after which the adapter throws the
timeout error. -/
def pollLoop (poll : Nat → PollResult) : Nat → Nat → Except String (AudioProgressResponse × Nat)
  | 0, _ => .error "Audio download timed out. Please try again."
  | fuel + 1, attempt =>
    match poll attempt with
    | .thrown msg => .error msg
    | .httpFail => pollLoop poll fuel (attempt + 1)
    | .ok r =>
      if truthy r.download_url then .ok (r, attempt + 1)
      else if r.error then .error (jsOrS r.text "Audio download processing failed")
      else pollLoop poll fuel (attempt + 1)

/-- Source `downloadAudio` (`route.ts` lines 443-527).  A thrown error anywhere is
an `Except.error`, caught by the route's `POST`.  `now` stands for
`Date.now()` in the generated filename. -/
def downloadAudio (initial : FetchOutA) (poll : Nat → PollResult) (now : Nat) :
    Except String AdapterResult :=
  match initial with
  | .thrown msg => .error msg
  | .notOk httpStatus => .error ("Audio API request failed: " ++ toString httpStatus)
  | .ok d =>
    if !d.success || d.error then .error (jsOrS d.message "Audio download failed to initialize")
    else
      let infoTitle : Option String :=
        match d.info with
        | some i => i.title
        | none => none
      let title := jsOrS (jsOr d.title infoTitle) "download"
      let thumbnail : Option String :=
        match d.info with
        | some i => i.image
        | none => none
      if truthy d.progress_url then
        match pollLoop poll MAX_POLL_ATTEMPTS 0 with
        | .error msg => .error msg
        | .ok (r, _) =>
          .ok { status := "redirect"
                url := r.download_url
                filename := sanitize50 title ++ "_" ++ toString now ++ ".mp3"
                thumb := thumbnail
                title := some title
                quality := some "MP3 128kbps" }
      else .error "No progress URL returned from Audio API"

/-- Shape `SnapVideoMedia` (`route.ts` lines 310-320), with the fields the adapter
reads; `url` and `quality` are optional to cover malformed payloads. -/
structure SnapVideoMedia where
  url : Option String := none
  quality : Option String := none
  extension : Option String := none
  videoAvailable : Bool := false
  audioAvailable : Bool := false
deriving DecidableEq

/-- Shape `SnapVideoResponse` (`route.ts` lines 322-331). -/
structure SnapVideoResponse where
  url : Option String := none
  title : Option String := none
  thumbnail : Option String := none
  medias : Option (List SnapVideoMedia) := none
  error : Option String := none
  message : Option String := none
deriving DecidableEq

/-- Outcome of the video API fetch. -/
inductive FetchOutV where
  | thrown (msg : String)
  | notOk (httpStatus : Nat)
  | ok (d : SnapVideoResponse)

/-- The `qualityOrder` rank table (`route.ts` line 580); a missing or
unlisted quality ranks 0 (`qualityOrder[b.quality] || 0`). -/
def qualityOrder : Option String → Nat
  | some "1080p" => 3
  | some "720p" => 2
  | some "360p" => 1
  | _ => 0

/-- The `mp4Options` filter (`route.ts` lines 571-573): `extension === 'mp4'`
with both tracks available. -/
def mp4Filter (ms : List SnapVideoMedia) : List SnapVideoMedia :=
  ms.filter fun m => m.extension == some "mp4" && m.videoAvailable && m.audioAvailable

/-- The selection `mp4Options.sort((a, b) => rank(b) - rank(a))[0]`: the head of a stable
descending sort by `qualityOrder`, i.e. the first element attaining the
maximal rank. -/
def pickBest : List SnapVideoMedia → Option SnapVideoMedia
  | [] => none
  | m :: ms =>
    match pickBest ms with
    | none => some m
    | some b => if qualityOrder b.quality > qualityOrder m.quality then some b else some m

/-- Source `downloadVideo` (`route.ts` lines 530-596).  `now` stands for
`Date.now()`; the `MP4 ...` quality string renders a missing quality as
JavaScript does (`undefined`). -/
def downloadVideo (resp : FetchOutV) (now : Nat) : Except String AdapterResult :=
  match resp with
  | .thrown msg => .error msg
  | .notOk httpStatus => .error ("Video API request failed: " ++ toString httpStatus)
  | .ok data =>
    if truthy data.error || truthy data.message then
      .error (jsOrS (jsOr data.error data.message) "Video download failed")
    else
      match data.medias with
      | none => .error "No media found for this URL"
      | some ms =>
        if ms.isEmpty then .error "No media found for this URL"
        else
          match pickBest (mp4Filter ms) with
          | none => .error "No MP4 download option found"
          | some bestOption =>
            let title := jsOrS data.title "video_download"
            .ok { status := "redirect"
                  url := bestOption.url
                  filename := sanitize50 title ++ "_" ++ toString now ++ ".mp4"
                  thumb := data.thumbnail
                  title := some title
                  quality := some ("MP4 " ++ bestOption.quality.getD "undefined") }

/-- Outcome of `await request.json()` for the rate-limited route: threw, or
a body with the given `url` and `type` fields. -/
inductive Body3 where
  | thrown
  | ok (url : Option String) (type : Option String)

/-- The 429 response of the rate-limited route (`route.ts` lines 620-630). -/
def rateLimitedResp (_kind : Kind) : HttpResponse :=
  { httpStatus := 429, status := "error", errorCode := some "RATE_LIMIT_EXCEEDED",
    remaining := some 0 }

/-- The 200 response of the rate-limited route (`route.ts` lines 653-656):
the adapter result spread into the body plus `remaining`. -/
def successResp3 (r : AdapterResult) (remaining : Int) : HttpResponse :=
  { httpStatus := 200, status := r.status, url := r.url, filename := some r.filename,
    remaining := some remaining }

/-- The rate-limited route's `POST` handler (`route.ts` lines 598-666) as a
function of the body outcome, key presence, rate-limit read outcome and
store, the client key fields, and the upstream outcomes of whichever adapter
runs.  Adapter exceptions surface as 500 error responses via the handler's
`catch`. -/
def POST3 (body : Body3) (hasKey : Bool) (readOut : ReadOutcome) (store : Store)
    (ip day : String) (audioInit : FetchOutA) (poll : Nat → PollResult)
    (videoResp : FetchOutV) (now : Nat) : HttpResponse :=
  match body with
  | .thrown => errResp 500 "body parse error"
  | .ok urlOpt typeOpt =>
    if !truthy urlOpt then errResp 400 "Missing URL"
    else if !hasKey then errResp 500 "API key not configured"
    else
      let ty := typeOpt.getD "video"
      let downloadType := if ty == "audio" then Kind.audio else Kind.video
      let rateLimit := checkRateLimit store readOut ip downloadType day
      if !rateLimit.allowed then rateLimitedResp downloadType
      else
        let result :=
          if ty == "audio" then downloadAudio audioInit poll now
          else downloadVideo videoResp now
        match result with
        | .error msg => errResp 500 msg
        | .ok r => successResp3 r ((rateLimit.remaining : Int) - 1)

/-- Outcome of the `naoload_logs` insert in the log route: returned no error,
returned an error value (logged, not surfaced), or threw. -/
inductive InsertOut where
  | success
  | dbErr
  | thrown
deriving DecidableEq

/-- Outcome of `await request.json()` for the log route. -/
inductive LogBody where
  | thrown
  | ok (platform : Option String) (format : Option String)

/-- Responses of the log route (`src/unnamed/part_001`). -/
inductive LogResponse where
  | badRequest (msg : String)
  | success
  | serverError
deriving DecidableEq

/-- The `validPlatforms` list of the log route. -/
def validPlatforms : List String := ["youtube", "tiktok", "instagram", "facebook"]

/-- The `validFormats` list of the log route. -/
def validFormats : List String := ["mp3", "mp4"]

/-- The log route's `POST` handler (`src/unnamed/part_001` lines 9-46):
missing or invalid fields give 400; an unconfigured store or an insert that
returns an error still gives `{success:true}`; a thrown exception (body
parse, client construction or a rejected insert) gives 500. -/
def logPOST (body : LogBody) (configured : Bool) (insert : InsertOut) : LogResponse :=
  match body with
  | .thrown => .serverError
  | .ok platform format =>
    if !truthy platform || !truthy format then .badRequest "Missing platform or format"
    else if !(validPlatforms.contains (platform.getD "")) ||
        !(validFormats.contains (format.getD "")) then
      .badRequest "Invalid platform or format"
    else if !configured then .success
    else
      match insert with
      | .thrown => .serverError
      | _ => .success

/-- Outcome of `await request.json()` for the admin stats route. -/
inductive StatsBody where
  | thrown
  | ok (password : Option String)

/-- Responses of the admin stats route, with everything after the
authentication gate abstracted as `proceed` (the stats computation of
`stats/route.ts` lines 15-66 is not needed by any claim). -/
inductive StatsResponse where
  | unauthorized
  | proceed
  | serverError
deriving DecidableEq

/-- The authentication gate of the admin stats route
(`stats/route.ts` lines 4-13): 401 when `ADMIN_PASSWORD` is falsy (unset or
empty) or when the submitted password differs from it. -/
def statsPOST (adminPassword : Option String) (body : StatsBody) : StatsResponse :=
  match body with
  | .thrown => .serverError
  | .ok password =>
    if !truthy adminPassword || password != adminPassword then .unauthorized
    else .proceed

/-- The response is a redirect result with its `url` set. -/
def isRedirectResp (r : HttpResponse) : Bool :=
  r.status == "redirect" && truthy r.url

/-- The response is a picker result with a non-empty `picker`. -/
def isPickerResp (r : HttpResponse) : Bool :=
  r.status == "picker" &&
    (match r.picker with
     | some l => !l.isEmpty
     | none => false)

/-- The response is an error result with its `error` set. -/
def isErrorResp (r : HttpResponse) : Bool :=
  r.status == "error" && r.errorCode.isSome

/-- The Canonical Result invariant: exactly one of redirect-with-url,
picker-non-empty, error-set holds of the response. -/
def canonicalInv (r : HttpResponse) : Bool :=
  (isRedirectResp r && !isPickerResp r && !isErrorResp r) ||
  (!isRedirectResp r && isPickerResp r && !isErrorResp r) ||
  (!isRedirectResp r && !isPickerResp r && isErrorResp r)

theorem canonicalInv_errResp (s : Nat) (c : String) : canonicalInv (errResp s c) = true := rfl

theorem canonicalInv_redirectResp (u : Option String) (f : String) (h : truthy u = true) :
    canonicalInv (redirectResp u f) = true := by
  simp [canonicalInv, redirectResp, isRedirectResp, isPickerResp, isErrorResp, h]

theorem canonicalInv_pickerResp (items : List PickerItem) (h : items ≠ []) :
    canonicalInv (pickerResp items) = true := by
  simp [canonicalInv, pickerResp, isRedirectResp, isPickerResp, isErrorResp, truthy, h]

theorem canonicalInv_rateLimitedResp (k : Kind) : canonicalInv (rateLimitedResp k) = true := rfl

theorem canonicalInv_successResp3 (r : AdapterResult) (n : Int) (hs : r.status = "redirect")
    (hu : truthy r.url = true) : canonicalInv (successResp3 r n) = true := by
  simp [canonicalInv, successResp3, isRedirectResp, isPickerResp, isErrorResp, hs, hu]

theorem isPrefixL_append (x y s : List Char) (h : isPrefixL (x ++ y) s = true) :
    hasSub s y = true := by
  induction x generalizing s with
  | nil =>
    simp only [List.nil_append] at h
    cases s with
    | nil => simpa [hasSub] using h
    | cons c t => simp [hasSub, h]
  | cons a as ih =>
    cases s with
    | nil => simp [isPrefixL] at h
    | cons b bs =>
      simp only [List.cons_append, isPrefixL, Bool.and_eq_true] at h
      have := ih bs h.2
      simp [hasSub, this]

theorem hasSub_append (x y s : List Char) (h : hasSub s (x ++ y) = true) :
    hasSub s y = true := by
  induction s with
  | nil =>
    simp only [hasSub] at h ⊢
    cases x with
    | nil => simpa using h
    | cons a as => simp [isPrefixL] at h
  | cons c t ih =>
    simp only [hasSub, Bool.or_eq_true] at h ⊢
    rcases h with h | h
    · have := isPrefixL_append x y (c :: t) h
      simp only [hasSub, Bool.or_eq_true] at this
      exact this
    · exact Or.inr (ih h)

theorem jsIncludes_music_youtube (url : String)
    (h : jsIncludes url "music.youtube.com" = true) : jsIncludes url "youtube.com" = true := by
  have hdecomp : ("music.youtube.com" : String).data =
      ("music." : String).data ++ ("youtube.com" : String).data := by decide
  unfold jsIncludes at h ⊢
  rw [hdecomp] at h
  exact hasSub_append _ _ _ h

/-- C6 counterexample: the platform detectors are not case-insensitive and do
not return `tiktok` for every URL containing `tiktok.com`: a URL containing
both `youtube.com` and `tiktok.com` hits the earlier `youtube` branch of the
rate-limited detector; an upper-case `TIKTOK.COM` URL matches nothing, and
the rate-limited detector's fallback is `other`, not `unknown`. -/
theorem C6_detect_counterexample :
    detectPlatform "https://m.youtube.com/?u=tiktok.com" = "youtube" ∧
    detectPlatform "https://TIKTOK.COM/v" = "other" ∧
    detectPlatform1 "https://TIKTOK.COM/v" = "unknown" := by
  refine ⟨?_, ?_, ?_⟩ <;> decide

/-- C6 amended: both platform detectors are pure, case-sensitive,
first-match-wins substring classifiers.  A URL returns a platform tag iff it
contains that branch's substring verbatim and no earlier branch matches; a
URL matching no known substring yields `other` from the rate-limited
detector and `unknown` from the proxy detector. -/
theorem C6_detect_amended :
    (∀ url, jsIncludes url "youtube.com" = true ∨ jsIncludes url "youtu.be" = true →
      detectPlatform url = "youtube") ∧
    (∀ url, jsIncludes url "youtube.com" = false → jsIncludes url "youtu.be" = false →
      jsIncludes url "tiktok.com" = true → detectPlatform url = "tiktok") ∧
    (∀ url, jsIncludes url "youtube.com" = false → jsIncludes url "youtu.be" = false →
      jsIncludes url "tiktok.com" = false → jsIncludes url "instagram.com" = true →
      detectPlatform url = "instagram") ∧
    (∀ url, jsIncludes url "youtube.com" = false → jsIncludes url "youtu.be" = false →
      jsIncludes url "tiktok.com" = false → jsIncludes url "instagram.com" = false →
      (jsIncludes url "facebook.com" = true ∨ jsIncludes url "fb.watch" = true) →
      detectPlatform url = "facebook") ∧
    (∀ url, jsIncludes url "youtube.com" = false → jsIncludes url "youtu.be" = false →
      jsIncludes url "tiktok.com" = false → jsIncludes url "instagram.com" = false →
      jsIncludes url "facebook.com" = false → jsIncludes url "fb.watch" = false →
      (jsIncludes url "twitter.com" = true ∨ jsIncludes url "x.com" = true) →
      detectPlatform url = "twitter") ∧
    (∀ url, jsIncludes url "youtube.com" = false → jsIncludes url "youtu.be" = false →
      jsIncludes url "tiktok.com" = false → jsIncludes url "instagram.com" = false →
      jsIncludes url "facebook.com" = false → jsIncludes url "fb.watch" = false →
      jsIncludes url "twitter.com" = false → jsIncludes url "x.com" = false →
      jsIncludes url "music.youtube.com" = false → detectPlatform url = "other") ∧
    (∀ url, jsIncludes url "instagram.com" = true ∨ jsIncludes url "instagr.am" = true →
      detectPlatform1 url = "instagram") ∧
    (∀ url, jsIncludes url "instagram.com" = false → jsIncludes url "instagr.am" = false →
      (jsIncludes url "tiktok.com" = true ∨ jsIncludes url "vm.tiktok.com" = true) →
      detectPlatform1 url = "tiktok") ∧
    (∀ url, jsIncludes url "instagram.com" = false → jsIncludes url "instagr.am" = false →
      jsIncludes url "tiktok.com" = false → jsIncludes url "vm.tiktok.com" = false →
      (jsIncludes url "youtube.com" = true ∨ jsIncludes url "youtu.be" = true) →
      detectPlatform1 url = "youtube") ∧
    (∀ url, jsIncludes url "instagram.com" = false → jsIncludes url "instagr.am" = false →
      jsIncludes url "tiktok.com" = false → jsIncludes url "vm.tiktok.com" = false →
      jsIncludes url "youtube.com" = false → jsIncludes url "youtu.be" = false →
      detectPlatform1 url = "unknown") := by
  refine ⟨?_, ?_, ?_, ?_, ?_, ?_, ?_, ?_, ?_, ?_⟩
  · intro url h
    rcases h with h | h <;> simp [detectPlatform, h]
  · intro url h1 h2 h3
    simp [detectPlatform, h1, h2, h3]
  · intro url h1 h2 h3 h4
    simp [detectPlatform, h1, h2, h3, h4]
  · intro url h1 h2 h3 h4 h
    rcases h with h | h <;> simp [detectPlatform, h1, h2, h3, h4, h]
  · intro url h1 h2 h3 h4 h5 h6 h
    rcases h with h | h <;> simp [detectPlatform, h1, h2, h3, h4, h5, h6, h]
  · intro url h1 h2 h3 h4 h5 h6 h7 h8 h9
    simp [detectPlatform, h1, h2, h3, h4, h5, h6, h7, h8, h9]
  · intro url h
    rcases h with h | h <;> simp [detectPlatform1, h]
  · intro url h1 h2 h
    rcases h with h | h <;> simp [detectPlatform1, h1, h2, h]
  · intro url h1 h2 h3 h4 h
    rcases h with h | h <;> simp [detectPlatform1, h1, h2, h3, h4, h]
  · intro url h1 h2 h3 h4 h5 h6
    simp [detectPlatform1, h1, h2, h3, h4, h5, h6]

/-- C6 witness: the amended branch descriptions evaluated at concrete URLs. -/
theorem C6_detect_amended_witness :
    detectPlatform "https://youtu.be/abc" = "youtube" ∧
    detectPlatform "https://vm.tiktok.com/xyz" = "tiktok" ∧
    detectPlatform "https://www.instagram.com/p/1" = "instagram" ∧
    detectPlatform "https://fb.watch/v/2" = "facebook" ∧
    detectPlatform "https://x.com/u/status/3" = "twitter" ∧
    detectPlatform "https://example.org/a" = "other" ∧
    detectPlatform1 "https://instagr.am/p/4" = "instagram" ∧
    detectPlatform1 "https://www.tiktok.com/@u" = "tiktok" ∧
    detectPlatform1 "https://www.youtube.com/watch?v=abc" = "youtube" ∧
    detectPlatform1 "https://example.org/a" = "unknown" :=
  ⟨C6_detect_amended.1 _ (Or.inr (by decide)),
   C6_detect_amended.2.1 _ (by decide) (by decide) (by decide),
   C6_detect_amended.2.2.1 _ (by decide) (by decide) (by decide) (by decide),
   C6_detect_amended.2.2.2.1 _ (by decide) (by decide) (by decide) (by decide)
     (Or.inr (by decide)),
   C6_detect_amended.2.2.2.2.1 _ (by decide) (by decide) (by decide) (by decide) (by decide)
     (by decide) (Or.inr (by decide)),
   C6_detect_amended.2.2.2.2.2.1 _ (by decide) (by decide) (by decide) (by decide) (by decide)
     (by decide) (by decide) (by decide) (by decide),
   C6_detect_amended.2.2.2.2.2.2.1 _ (Or.inr (by decide)),
   C6_detect_amended.2.2.2.2.2.2.2.1 _ (by decide) (by decide) (Or.inl (by decide)),
   C6_detect_amended.2.2.2.2.2.2.2.2.1 _ (by decide) (by decide) (by decide) (by decide)
     (Or.inl (by decide)),
   C6_detect_amended.2.2.2.2.2.2.2.2.2 _ (by decide) (by decide) (by decide) (by decide)
     (by decide) (by decide)⟩

/-- C9: the rate-limited route's `detectPlatform` never returns
`youtube-music` — every URL containing `music.youtube.com` also contains
`youtube.com`, so the earlier `youtube` branch fires first. -/
theorem C9_no_youtube_music :
    ∀ url : String, (detectPlatform url == "youtube-music") = false := by
  intro url
  unfold detectPlatform
  by_cases h1 : (jsIncludes url "youtube.com" || jsIncludes url "youtu.be") = true
  · simp [h1]
  · have h1' : (jsIncludes url "youtube.com" || jsIncludes url "youtu.be") = false := by
      simpa using h1
    have hyt : jsIncludes url "youtube.com" = false := (Bool.or_eq_false_iff.mp h1').1
    have hmusic : jsIncludes url "music.youtube.com" = false := by
      cases hm : jsIncludes url "music.youtube.com" with
      | false => rfl
      | true =>
        have := jsIncludes_music_youtube url hm
        rw [hyt] at this
        exact absurd this (by simp)
    simp only [h1', hmusic, Bool.false_eq_true, if_false]
    split
    · rfl
    split
    · rfl
    split
    · rfl
    split
    · rfl
    rfl

/-- C10: the admin stats endpoint fails closed when `ADMIN_PASSWORD` is unset
or empty — every submitted password, the empty string included, gets 401. -/
theorem C10_admin_fail_closed :
    ∀ password : Option String,
      statsPOST none (StatsBody.ok password) = StatsResponse.unauthorized ∧
      statsPOST (some "") (StatsBody.ok password) = StatsResponse.unauthorized := by
  intro password
  constructor <;> simp [statsPOST, truthy]

/-- C7: `checkRateLimit` fails open — a counter-store read error with a code
other than `PGRST116`, or a thrown read, yields `allowed = true` with the
full configured limit remaining. -/
theorem C7_fail_open :
    ∀ (store : Store) (ip : String) (kind : Kind) (day : String) (code : String),
      code ≠ "PGRST116" →
      checkRateLimit store (ReadOutcome.dbErr code) ip kind day = ⟨true, RATE_LIMITS kind⟩ ∧
      checkRateLimit store ReadOutcome.thrown ip kind day = ⟨true, RATE_LIMITS kind⟩ := by
  intro store ip kind day code hcode
  refine ⟨?_, rfl⟩
  simp [checkRateLimit, hcode]

/-- C7 witness: a concrete failed read (Postgres error `PGRST301`) is allowed
with the full video limit of 4 remaining. -/
theorem C7_fail_open_witness :
    checkRateLimit emptyStore (ReadOutcome.dbErr "PGRST301") "1.2.3.4" Kind.video "2026-10-11" =
      ⟨true, 4⟩ ∧
    checkRateLimit emptyStore ReadOutcome.thrown "1.2.3.4" Kind.video "2026-10-11" = ⟨true, 4⟩ :=
  C7_fail_open emptyStore "1.2.3.4" Kind.video "2026-10-11" "PGRST301" (by decide)

/-- C8 counterexample: the log route does not always answer
`{success:true}` — a body missing `format` gets a 400 error, and a thrown
insert gets a 500 error. -/
theorem C8_log_counterexample :
    logPOST (LogBody.ok (some "youtube") none) true InsertOut.success =
      LogResponse.badRequest "Missing platform or format" ∧
    logPOST (LogBody.ok (some "youtube") (some "mp4")) true InsertOut.thrown =
      LogResponse.serverError ∧
    logPOST (LogBody.ok (some "youtube") none) true InsertOut.success ≠ LogResponse.success := by
  refine ⟨?_, ?_, ?_⟩ <;> decide

/-- C8 amended: for every body whose `platform` and `format` are in the valid
lists, and whenever the logging store does not throw — including when it is
unconfigured or the insert returns an error — the log route answers
`{success:true}`. -/
theorem C8_log_amended :
    ∀ (p f : String) (configured : Bool) (insert : InsertOut),
      p ∈ validPlatforms → f ∈ validFormats → insert ≠ InsertOut.thrown →
      logPOST (LogBody.ok (some p) (some f)) configured insert = LogResponse.success := by
  intro p f configured insert hp hf hi
  simp only [validPlatforms, List.mem_cons, List.not_mem_nil, or_false] at hp
  simp only [validFormats, List.mem_cons, List.not_mem_nil, or_false] at hf
  cases insert with
  | thrown => exact absurd rfl hi
  | success =>
    rcases hp with rfl | rfl | rfl | rfl <;> rcases hf with rfl | rfl <;>
      cases configured <;> decide
  | dbErr =>
    rcases hp with rfl | rfl | rfl | rfl <;> rcases hf with rfl | rfl <;>
      cases configured <;> decide

/-- C8 witness: a valid body whose insert returns an error value still gets
`{success:true}`. -/
theorem C8_log_amended_witness :
    logPOST (LogBody.ok (some "youtube") (some "mp4")) true InsertOut.dbErr =
      LogResponse.success :=
  C8_log_amended "youtube" "mp4" true InsertOut.dbErr (by decide) (by decide) (by decide)

/-- One successful consume for the key `(203.0.113.7, video, 2026-10-11)`:
the upsert returns no error (the normal case when the table's unique
constraint on the key columns exists). -/
def consumeVideoOk (s : Store) : Store :=
  incrementDownloadCount s UpsertOut.success "203.0.113.7" Kind.video "2026-10-11"

/-- The store after four successful download requests for that key. -/
def storeAfter4 : Store :=
  consumeVideoOk (consumeVideoOk (consumeVideoOk (consumeVideoOk emptyStore)))

/-- C2: with threshold 4 for video, four successful requests (each allowed at
its check, each followed by a consume whose upsert succeeds) leave the
stored count at 1, because the upsert's merge-duplicates write sets
`download_count` to 1 unconditionally; the fifth check is therefore still
`allowed = true` with `remaining = 3`, not `allowed = false, remaining = 0`.
The independence part of the claim does hold: a different kind or different
day key is untouched. -/
theorem C2_rate_limit_fifth_check_bug :
    (checkRateLimit emptyStore ReadOutcome.success "203.0.113.7" Kind.video
      "2026-10-11").allowed = true ∧
    (checkRateLimit (consumeVideoOk emptyStore) ReadOutcome.success "203.0.113.7" Kind.video
      "2026-10-11").allowed = true ∧
    (checkRateLimit (consumeVideoOk (consumeVideoOk emptyStore)) ReadOutcome.success
      "203.0.113.7" Kind.video "2026-10-11").allowed = true ∧
    (checkRateLimit (consumeVideoOk (consumeVideoOk (consumeVideoOk emptyStore)))
      ReadOutcome.success "203.0.113.7" Kind.video "2026-10-11").allowed = true ∧
    storeAfter4 ⟨"203.0.113.7", Kind.video, "2026-10-11"⟩ = some 1 ∧
    checkRateLimit storeAfter4 ReadOutcome.success "203.0.113.7" Kind.video "2026-10-11" =
      ⟨true, 3⟩ ∧
    checkRateLimit storeAfter4 ReadOutcome.success "203.0.113.7" Kind.video "2026-10-11" ≠
      ⟨false, 0⟩ ∧
    storeAfter4 ⟨"203.0.113.7", Kind.audio, "2026-10-11"⟩ = none ∧
    storeAfter4 ⟨"203.0.113.7", Kind.video, "2026-10-12"⟩ = none := by
  refine ⟨?_, ?_, ?_, ?_, ?_, ?_, ?_, ?_, ?_⟩ <;> decide

/-- A store holding count 3 for the video key (reachable, e.g., after one
successful upsert followed by two error-path increments). -/
def c3Store : Store :=
  fun k => if k = ⟨"203.0.113.7", Kind.video, "2026-10-11"⟩ then some 3 else none

/-- C3: the stored count is not monotone under the consume step — a
successful upsert overwrites a count of 3 with 1.  The second half of the
claim does hold: on a successful read, a request is allowed iff the current
count is strictly below the configured threshold. -/
theorem C3_count_decreases_bug :
    c3Store ⟨"203.0.113.7", Kind.video, "2026-10-11"⟩ = some 3 ∧
    (incrementDownloadCount c3Store UpsertOut.success "203.0.113.7" Kind.video "2026-10-11")
      ⟨"203.0.113.7", Kind.video, "2026-10-11"⟩ = some 1 ∧
    (1 : Nat) < 3 ∧
    (∀ (store : Store) (ip : String) (kind : Kind) (day : String),
      (checkRateLimit store ReadOutcome.success ip kind day).allowed =
        decide ((store ⟨ip, kind, day⟩).getD 0 < RATE_LIMITS kind)) := by
  refine ⟨by decide, by decide, by decide, fun store ip kind day => rfl⟩

/-- A poll attempt that neither succeeds nor fails explicitly: an HTTP error
response (the loop continues), or a payload with no truthy `download_url`
and a falsy `error` flag. -/
def pollSkips (poll : Nat → PollResult) (i : Nat) : Prop :=
  poll i = PollResult.httpFail ∨
    ∃ r, poll i = PollResult.ok r ∧ truthy r.download_url = false ∧ r.error = false

theorem pollLoop_skip_step (poll : Nat → PollResult) (fuel attempt : Nat)
    (h : pollSkips poll attempt) :
    pollLoop poll (fuel + 1) attempt = pollLoop poll fuel (attempt + 1) := by
  rcases h with h | ⟨r, hr, hu, he⟩
  · simp [pollLoop, h]
  · simp [pollLoop, hr, hu, he]

theorem pollLoop_skip_many (poll : Nat → PollResult) (k : Nat) :
    ∀ fuel attempt, (∀ i, i < k → pollSkips poll (attempt + i)) →
      pollLoop poll (fuel + k) attempt = pollLoop poll fuel (attempt + k) := by
  induction k with
  | zero => intro fuel attempt _; rfl
  | succ n ih =>
    intro fuel attempt h
    have h0 : pollSkips poll attempt := by simpa using h 0 (Nat.succ_pos n)
    have step : pollLoop poll ((fuel + n) + 1) attempt = pollLoop poll (fuel + n) (attempt + 1) :=
      pollLoop_skip_step poll (fuel + n) attempt h0
    have rest : pollLoop poll (fuel + n) (attempt + 1) = pollLoop poll fuel ((attempt + 1) + n) := by
      refine ih fuel (attempt + 1) fun i hi => ?_
      have h' := h (i + 1) (by omega)
      rw [show attempt + 1 + i = attempt + (i + 1) by omega]
      exact h'
    calc pollLoop poll (fuel + (n + 1)) attempt
        = pollLoop poll (fuel + n) (attempt + 1) := step
      _ = pollLoop poll fuel ((attempt + 1) + n) := rest
      _ = pollLoop poll fuel (attempt + (n + 1)) := by rw [show attempt + 1 + n = attempt + (n + 1) by omega]

theorem pollLoop_timeout (poll : Nat → PollResult) :
    ∀ fuel attempt, (∀ i, i < fuel → pollSkips poll (attempt + i)) →
      pollLoop poll fuel attempt = Except.error "Audio download timed out. Please try again." := by
  intro fuel
  induction fuel with
  | zero => intro attempt _; rfl
  | succ n ih =>
    intro attempt h
    have h0 : pollSkips poll attempt := by simpa using h 0 (Nat.succ_pos n)
    rw [pollLoop_skip_step poll n attempt h0]
    refine ih (attempt + 1) fun i hi => ?_
    have h' := h (i + 1) (by omega)
    rw [show attempt + 1 + i = attempt + (i + 1) by omega]
    exact h'

theorem pollLoop_hit (poll : Nat → PollResult) (fuel attempt : Nat) (r : AudioProgressResponse)
    (hr : poll attempt = PollResult.ok r) (hu : truthy r.download_url = true) :
    pollLoop poll (fuel + 1) attempt = Except.ok (r, attempt + 1) := by
  simp [pollLoop, hr, hu]

theorem pollLoop_ok_truthy (poll : Nat → PollResult) :
    ∀ fuel attempt r n, pollLoop poll fuel attempt = Except.ok (r, n) →
      truthy r.download_url = true := by
  intro fuel
  induction fuel with
  | zero => intro attempt r n h; simp [pollLoop] at h
  | succ m ih =>
    intro attempt r n h
    rw [pollLoop] at h
    cases hp : poll attempt with
    | thrown msg => rw [hp] at h; simp at h
    | httpFail => rw [hp] at h; dsimp only at h; exact ih _ _ _ h
    | ok r2 =>
      rw [hp] at h
      dsimp only at h
      by_cases hu : truthy r2.download_url = true
      · rw [if_pos hu] at h
        injection h with h'
        injection h' with h1 h2
        exact h1 ▸ hu
      · rw [if_neg hu] at h
        by_cases he : r2.error = true
        · rw [if_pos he] at h; simp at h
        · rw [if_neg he] at h; exact ih _ _ _ h

/-- C4: the audio adapter polls the progress endpoint up to the 30-attempt
ceiling.  If the first five polls carry no download link (and no error flag)
and the sixth carries one, the loop stops at the sixth poll — exactly 6
progress requests — and the adapter succeeds with that poll's data; if every
poll within the ceiling is a skip (HTTP failure, or no link and no error
flag), the adapter fails with the timeout error. -/
theorem C4_polling_adapter :
    (∀ (poll : Nat → PollResult) (rs : Nat → AudioProgressResponse) (u : String)
        (d : AudioInitialResponse) (now : Nat),
      (∀ i, i < 5 → poll i = PollResult.ok (rs i) ∧ truthy (rs i).download_url = false ∧
        (rs i).error = false) →
      poll 5 = PollResult.ok (rs 5) → (rs 5).download_url = some u → u ≠ "" →
      d.success = true → d.error = false → truthy d.progress_url = true →
      pollLoop poll MAX_POLL_ATTEMPTS 0 = Except.ok (rs 5, 6) ∧
        ∃ res, downloadAudio (FetchOutA.ok d) poll now = Except.ok res ∧ res.url = some u) ∧
    (∀ (poll : Nat → PollResult) (d : AudioInitialResponse) (now : Nat),
      (∀ i, i < MAX_POLL_ATTEMPTS → pollSkips poll i) →
      d.success = true → d.error = false → truthy d.progress_url = true →
      downloadAudio (FetchOutA.ok d) poll now =
        Except.error "Audio download timed out. Please try again.") := by
  constructor
  · intro poll rs u d now h5 hp5 hdl hune hds hde hprog
    have hu5 : truthy (rs 5).download_url = true := by
      rw [hdl]; simp [truthy, hune]
    have hskip : ∀ i, i < 5 → pollSkips poll (0 + i) := by
      intro i hi
      rw [Nat.zero_add]
      exact Or.inr ⟨rs i, (h5 i hi).1, (h5 i hi).2.1, (h5 i hi).2.2⟩
    have hpl : pollLoop poll MAX_POLL_ATTEMPTS 0 = Except.ok (rs 5, 6) := by
      have e1 : pollLoop poll (25 + 5) 0 = pollLoop poll 25 (0 + 5) :=
        pollLoop_skip_many poll 5 25 0 hskip
      have e2 : pollLoop poll (24 + 1) 5 = Except.ok (rs 5, 5 + 1) :=
        pollLoop_hit poll 24 5 (rs 5) hp5 hu5
      calc pollLoop poll MAX_POLL_ATTEMPTS 0
          = pollLoop poll (25 + 5) 0 := rfl
        _ = pollLoop poll 25 (0 + 5) := e1
        _ = pollLoop poll (24 + 1) 5 := rfl
        _ = Except.ok (rs 5, 5 + 1) := e2
        _ = Except.ok (rs 5, 6) := rfl
    refine ⟨hpl, ?_⟩
    simp only [downloadAudio, hds, hde, hprog, Bool.not_true, Bool.false_or, Bool.or_false,
      if_false, if_true, ite_true, ite_false]
    rw [hpl]
    exact ⟨_, rfl, hdl⟩
  · intro poll d now hskip hds hde hprog
    have ht : pollLoop poll MAX_POLL_ATTEMPTS 0 =
        Except.error "Audio download timed out. Please try again." := by
      refine pollLoop_timeout poll MAX_POLL_ATTEMPTS 0 fun i hi => ?_
      rw [Nat.zero_add]
      exact hskip i hi
    simp only [downloadAudio, hds, hde, hprog, Bool.not_true, Bool.false_or, Bool.or_false,
      if_false, if_true, ite_true, ite_false]
    rw [ht]
    rfl

/-- A progress payload sequence: processing for the first five attempts, a
download link from the sixth on. -/
def rsW : Nat → AudioProgressResponse := fun i =>
  if i < 5 then { success := true, progress := some 50 }
  else { success := true, progress := some 100, download_url := some "https://cdn.example/out.mp3" }

/-- The poll outcomes matching `rsW`. -/
def pollW : Nat → PollResult := fun i => PollResult.ok (rsW i)

/-- A progress endpoint that always reports processing. -/
def pollT : Nat → PollResult := fun _ => PollResult.ok { success := true, progress := some 10 }

/-- A well-formed initial response from the audio API. -/
def audioInitW : AudioInitialResponse :=
  { success := true, id := "j1", title := some "My Song",
    progress_url := some "https://api.example/progress/j1" }

/-- C4 witness: the polling facts instantiated at concrete poll sequences. -/
theorem C4_polling_adapter_witness :
    (pollLoop pollW MAX_POLL_ATTEMPTS 0 = Except.ok (rsW 5, 6) ∧
      ∃ res, downloadAudio (FetchOutA.ok audioInitW) pollW 0 = Except.ok res ∧
        res.url = some "https://cdn.example/out.mp3") ∧
    downloadAudio (FetchOutA.ok audioInitW) pollT 0 =
      Except.error "Audio download timed out. Please try again." :=
  ⟨C4_polling_adapter.1 pollW rsW "https://cdn.example/out.mp3" audioInitW 0
      (fun i hi => ⟨rfl, by simp [rsW, hi, truthy], by simp [rsW, hi]⟩)
      rfl (by decide) (by decide) rfl rfl (by decide),
   C4_polling_adapter.2 pollT audioInitW 0
      (fun i _ => Or.inr ⟨_, rfl, rfl, rfl⟩) rfl rfl (by decide)⟩

theorem pickBest_mem : ∀ (l : List SnapVideoMedia) (m : SnapVideoMedia),
    pickBest l = some m → m ∈ l := by
  intro l
  induction l with
  | nil => intro m h; simp [pickBest] at h
  | cons a t ih =>
    intro m h
    rw [pickBest] at h
    cases hpb : pickBest t with
    | none =>
      rw [hpb] at h; dsimp only at h
      injection h with h'
      exact h' ▸ List.mem_cons_self a t
    | some b =>
      rw [hpb] at h; dsimp only at h
      by_cases hq : qualityOrder b.quality > qualityOrder a.quality
      · rw [if_pos hq] at h
        injection h with h'
        exact h' ▸ List.mem_cons_of_mem a (ih b hpb)
      · rw [if_neg hq] at h
        injection h with h'
        exact h' ▸ List.mem_cons_self a t

theorem pickBest_max : ∀ (l : List SnapVideoMedia) (m : SnapVideoMedia),
    pickBest l = some m → ∀ c ∈ l, qualityOrder c.quality ≤ qualityOrder m.quality := by
  intro l
  induction l with
  | nil => intro m h; simp [pickBest] at h
  | cons a t ih =>
    intro m h c hc
    rw [pickBest] at h
    rcases List.mem_cons.mp hc with rfl | hct
    · cases hpb : pickBest t with
      | none =>
        rw [hpb] at h; dsimp only at h
        injection h with h'
        rw [← h']
      | some b =>
        rw [hpb] at h; dsimp only at h
        by_cases hq : qualityOrder b.quality > qualityOrder c.quality
        · rw [if_pos hq] at h
          injection h with h'
          subst h'
          omega
        · rw [if_neg hq] at h
          injection h with h'
          rw [← h']
    · cases hpb : pickBest t with
      | none =>
        cases t with
        | nil => simp at hct
        | cons x xs =>
          rw [pickBest] at hpb
          cases h2 : pickBest xs with
          | none => rw [h2] at hpb; simp at hpb
          | some b =>
            rw [h2] at hpb
            dsimp only at hpb
            split at hpb <;> simp at hpb
      | some b =>
        have hcb := ih b hpb c hct
        rw [hpb] at h; dsimp only at h
        by_cases hq : qualityOrder b.quality > qualityOrder a.quality
        · rw [if_pos hq] at h
          injection h with h'
          subst h'
          exact hcb
        · rw [if_neg hq] at h
          injection h with h'
          subst h'
          omega

/-- The 720p candidate with both tracks. -/
def demo720av : SnapVideoMedia :=
  { url := some "https://cdn.example/720av.mp4", quality := some "720p",
    extension := some "mp4", videoAvailable := true, audioAvailable := true }

/-- The 1080p candidate with both tracks. -/
def demo1080av : SnapVideoMedia :=
  { url := some "https://cdn.example/1080av.mp4", quality := some "1080p",
    extension := some "mp4", videoAvailable := true, audioAvailable := true }

/-- The 1080p video-only candidate. -/
def demo1080vo : SnapVideoMedia :=
  { url := some "https://cdn.example/1080vo.mp4", quality := some "1080p",
    extension := some "mp4", videoAvailable := true, audioAvailable := false }

/-- The candidate set `{720p+audio, 1080p+audio, 1080p video-only}`. -/
def demoMedias : List SnapVideoMedia := [demo720av, demo1080av, demo1080vo]

/-- An upstream video payload carrying those three candidates. -/
def demoSnapPayload : SnapVideoResponse :=
  { title := some "demo", medias := some demoMedias }

/-- C5: the video adapter's selection always carries both audio and video
tracks and is rank-maximal (per `1080p later 720p later 360p`, unranked
lowest) among the mp4 candidates offering both tracks; on the candidate set
`{720p+audio, 1080p+audio, 1080p video-only}` it returns the 1080p+audio
entry. -/
theorem C5_quality_selection :
    (∀ (ms : List SnapVideoMedia) (m : SnapVideoMedia),
      pickBest (mp4Filter ms) = some m →
      m.videoAvailable = true ∧ m.audioAvailable = true ∧
        ∀ c ∈ ms, c.extension = some "mp4" → c.videoAvailable = true → c.audioAvailable = true →
          qualityOrder c.quality ≤ qualityOrder m.quality) ∧
    (∃ res, downloadVideo (FetchOutV.ok demoSnapPayload) 0 = Except.ok res ∧
      res.url = some "https://cdn.example/1080av.mp4" ∧ res.quality = some "MP4 1080p") := by
  constructor
  · intro ms m hpb
    have hmem := pickBest_mem _ _ hpb
    obtain ⟨hms, hcond⟩ := List.mem_filter.mp hmem
    simp only [Bool.and_eq_true, beq_iff_eq] at hcond
    refine ⟨hcond.1.2, hcond.2, ?_⟩
    intro c hc hce hcv hca
    have hcf : c ∈ mp4Filter ms := by
      refine List.mem_filter.mpr ⟨hc, ?_⟩
      simp [hce, hcv, hca]
    exact pickBest_max _ _ hpb c hcf
  · exact ⟨_, rfl, rfl, rfl⟩

/-- C5 witness: the general selection properties instantiated at the
three-candidate set, where the selected entry is the 1080p+audio one. -/
theorem C5_quality_selection_witness :
    demo1080av.videoAvailable = true ∧ demo1080av.audioAvailable = true ∧
      ∀ c ∈ demoMedias, c.extension = some "mp4" → c.videoAvailable = true →
        c.audioAvailable = true → qualityOrder c.quality ≤ qualityOrder demo1080av.quality :=
  C5_quality_selection.1 demoMedias demo1080av (by decide)

theorem downloadAudio_ok (initial : FetchOutA) (poll : Nat → PollResult) (now : Nat)
    (r : AdapterResult) (h : downloadAudio initial poll now = Except.ok r) :
    r.status = "redirect" ∧ truthy r.url = true := by
  cases initial with
  | thrown msg => simp [downloadAudio] at h
  | notOk s => simp [downloadAudio] at h
  | ok d =>
    rw [downloadAudio] at h
    dsimp only at h
    by_cases h1 : (!d.success || d.error) = true
    · rw [if_pos h1] at h; simp at h
    · rw [if_neg h1] at h
      by_cases h2 : truthy d.progress_url = true
      · rw [if_pos h2] at h
        cases hp : pollLoop poll MAX_POLL_ATTEMPTS 0 with
        | error m => rw [hp] at h; simp at h
        | ok pr =>
          obtain ⟨pres, n⟩ := pr
          rw [hp] at h
          dsimp only at h
          injection h with h'
          subst h'
          exact ⟨rfl, pollLoop_ok_truthy poll _ _ _ _ hp⟩
      · rw [if_neg h2] at h; simp at h

theorem downloadVideo_ok (resp : FetchOutV) (now : Nat) (r : AdapterResult)
    (h : downloadVideo resp now = Except.ok r) :
    r.status = "redirect" ∧
      ∃ d ms m, resp = FetchOutV.ok d ∧ d.medias = some ms ∧ m ∈ ms ∧ r.url = m.url := by
  cases resp with
  | thrown msg => simp [downloadVideo] at h
  | notOk s => simp [downloadVideo] at h
  | ok data =>
    rw [downloadVideo] at h
    dsimp only at h
    by_cases h1 : (truthy data.error || truthy data.message) = true
    · rw [if_pos h1] at h; simp at h
    · rw [if_neg h1] at h
      cases hms : data.medias with
      | none => rw [hms] at h; simp at h
      | some ms =>
        rw [hms] at h
        dsimp only at h
        by_cases h2 : ms.isEmpty = true
        · rw [if_pos h2] at h; simp at h
        · rw [if_neg h2] at h
          cases hpb : pickBest (mp4Filter ms) with
          | none => rw [hpb] at h; simp at h
          | some best =>
            rw [hpb] at h
            dsimp only at h
            injection h with h'
            subst h'
            have hmem : best ∈ ms := List.mem_of_mem_filter (pickBest_mem _ _ hpb)
            exact ⟨rfl, data, ms, best, rfl, hms, hmem, rfl⟩

theorem canonicalInv_POST1 (body : BodyOut1) (hasKey : Bool) (fetch : FetchOut1) :
    canonicalInv (POST1 body hasKey fetch) = true := by
  cases body with
  | thrown => exact canonicalInv_errResp _ _
  | ok urlOpt =>
    simp only [POST1]
    split
    · exact canonicalInv_errResp _ _
    split
    · exact canonicalInv_errResp _ _
    split
    · exact canonicalInv_errResp _ _
    split
    · exact canonicalInv_errResp _ _
    cases fetch with
    | thrown msg => exact canonicalInv_errResp _ _
    | ok httpOk httpStatus json =>
      cases json with
      | none => exact canonicalInv_errResp _ _
      | some data =>
        dsimp only
        split
        · exact canonicalInv_errResp _ _
        split
        · next hurl => exact canonicalInv_redirectResp _ _ hurl
        split
        · next hne => exact canonicalInv_pickerResp _ (by simpa using hne)
        · exact canonicalInv_errResp _ _

theorem canonicalInv_POST3 (body : Body3) (hasKey : Bool) (readOut : ReadOutcome) (store : Store)
    (ip day : String) (audioInit : FetchOutA) (poll : Nat → PollResult) (videoResp : FetchOutV)
    (now : Nat)
    (hvid : ∀ d ms, videoResp = FetchOutV.ok d → d.medias = some ms →
      ∀ m ∈ ms, truthy m.url = true) :
    canonicalInv (POST3 body hasKey readOut store ip day audioInit poll videoResp now) = true := by
  cases body with
  | thrown => exact canonicalInv_errResp _ _
  | ok urlOpt typeOpt =>
    simp only [POST3]
    split
    · exact canonicalInv_errResp _ _
    split
    · exact canonicalInv_errResp _ _
    split
    · split
      · exact canonicalInv_rateLimitedResp _
      · cases hres : downloadAudio audioInit poll now with
        | error msg => exact canonicalInv_errResp _ _
        | ok r =>
          obtain ⟨hs, hu⟩ := downloadAudio_ok _ _ _ r hres
          exact canonicalInv_successResp3 _ _ hs hu
    · split
      · exact canonicalInv_rateLimitedResp _
      · cases hres : downloadVideo videoResp now with
        | error msg => exact canonicalInv_errResp _ _
        | ok r =>
          obtain ⟨hs, d, ms, m, hresp, hms, hmem, hurl⟩ := downloadVideo_ok _ _ r hres
          have hu := hvid d ms hresp hms m hmem
          rw [← hurl] at hu
          exact canonicalInv_successResp3 _ _ hs hu

/-- A malformed upstream media entry: an mp4 candidate with both tracks but
no `url` field. -/
def badSnapMedia : SnapVideoMedia :=
  { quality := some "720p", extension := some "mp4",
    videoAvailable := true, audioAvailable := true }

/-- A malformed upstream video payload carrying only that entry. -/
def badSnapPayload : SnapVideoResponse :=
  { medias := some [badSnapMedia] }

/-- C1 counterexample: the rate-limited handler violates the Canonical
Result invariant on a malformed upstream payload — the video adapter copies
the selected media's missing `url` into a `status:'redirect'` response, so
none of url-with-redirect, non-empty picker, error-set holds. -/
theorem C1_canonical_result_counterexample :
    canonicalInv (POST3 (Body3.ok (some "https://www.tiktok.com/@u/video/1") none) true
      ReadOutcome.success emptyStore "203.0.113.7" "2026-10-11"
      (FetchOutA.thrown "unused") (fun _ => PollResult.httpFail)
      (FetchOutV.ok badSnapPayload) 0) = false := by
  decide

/-- C1 amended: every response of the proxy download handler satisfies the
Canonical Result invariant, for every input body and upstream payload; every
response of the rate-limited handler satisfies it provided each media entry
of the upstream video payload carries a non-empty `url` (the adapter copies
the selected entry's `url` unchecked, so an entry lacking it yields a
redirect-status response with no url). -/
theorem C1_canonical_result :
    (∀ (body : BodyOut1) (hasKey : Bool) (fetch : FetchOut1),
      canonicalInv (POST1 body hasKey fetch) = true) ∧
    (∀ (body : Body3) (hasKey : Bool) (readOut : ReadOutcome) (store : Store) (ip day : String)
        (audioInit : FetchOutA) (poll : Nat → PollResult) (videoResp : FetchOutV) (now : Nat),
      (∀ d ms, videoResp = FetchOutV.ok d → d.medias = some ms →
        ∀ m ∈ ms, truthy m.url = true) →
      canonicalInv (POST3 body hasKey readOut store ip day audioInit poll videoResp now) = true) :=
  ⟨canonicalInv_POST1, fun body hasKey readOut store ip day audioInit poll videoResp now hvid =>
    canonicalInv_POST3 body hasKey readOut store ip day audioInit poll videoResp now hvid⟩

/-- C1 witness: the invariant evaluated on a concrete proxy request and on a
concrete rate-limited request with a well-formed video payload. -/
theorem C1_canonical_result_witness :
    canonicalInv (POST1 (BodyOut1.ok (some "https://www.tiktok.com/@u/video/1")) true
      (FetchOut1.ok true 200 (some { link := some "https://cdn.example/v.mp4" }))) = true ∧
    canonicalInv (POST3 (Body3.ok (some "https://www.tiktok.com/@u/video/1") none) true
      ReadOutcome.success emptyStore "203.0.113.7" "2026-10-11" (FetchOutA.thrown "unused")
      (fun _ => PollResult.httpFail) (FetchOutV.ok demoSnapPayload) 0) = true :=
  ⟨C1_canonical_result.1 _ _ _,
   C1_canonical_result.2 _ _ _ _ _ _ _ _ _ _ (fun d ms hd hms m hm => by
      injection hd with hd'
      subst hd'
      simp only [demoSnapPayload] at hms
      injection hms with hms'
      subst hms'
      fin_cases hm <;> decide)⟩

end Naoload
